import Mathlib

/-!
Shallow embedding of src/nbconvert/preprocessors/tagremove.py.

The Python class TagRemovePreprocessor extends ClearOutputPreprocessor.
Cells and outputs are nbformat NotebookNode objects: dict-like mappings with
attribute access.  We model exactly the fields the module touches and keep an
opaque payload field for everything else, so that the frame of each operation
is visible.  Python attribute access on the preprocessor instance is modelled
explicitly: reading an attribute that is not defined on the class raises
AttributeError, which the embedding returns through Except.
-/

namespace TagRemove

/-- Output item of a cell.  The module only ever reads the optional tags entry
of the metadata of an output (line 94: output.metadata.get with default), so
the tags entry is modelled directly and the rest of the output object is an
opaque payload. -/
structure Output where
  tags : Option (List String)
  payload : String
deriving DecidableEq

/-- Cell of a notebook.  The module reads the top-level tags key of the cell
with a default (lines 42 and 65: cell.get), the outputs list, the execution
counter, and the optional metadata mapping (lines 70 to 72); everything else
is an opaque payload.  Metadata is a mapping from field names to values; the
values themselves are opaque to the module, modelled as lists of strings so
that a tags entry can also live inside metadata. -/
structure Cell where
  tags : Option (List String)
  outputs : List Output
  execution_count : Option Int
  metadata : Option (List (String × List String))
  payload : String
deriving DecidableEq

/-- Notebook document: the ordered cell list (line 53: nb.cells) plus an
opaque payload for the remaining notebook fields, which the module never
touches. -/
structure Notebook where
  cells : List Cell
  payload : String
deriving DecidableEq

/-- Configuration state of a TagRemovePreprocessor instance: the three traits
declared on the class (lines 29 to 31), plus remove_metadata_fields.
Modelled from the spec: remove_metadata_fields is inherited from
ClearOutputPreprocessor, whose source is not under src/; the spec (section
4.1) describes it as a list of metadata field names to strip when outputs are
cleared, and lists no further configuration attribute. -/
structure TagRemovePreprocessor where
  remove_cell_tags : List String := []
  remove_all_output_tags : List String := []
  remove_single_output_tags : List String := []
  remove_metadata_fields : List String := [("collapsed"), ("scrolled")]
deriving DecidableEq

/-- Python errors the embedding can surface.  The module itself raises
nothing on purpose; AttributeError arises from reading an attribute that is
not defined on the instance. -/
inductive PyError where
  | attributeError (name : String)
deriving DecidableEq

/-- Python attribute lookup on a TagRemovePreprocessor instance: the names
defined are the three traits declared on the class and the inherited
remove_metadata_fields; any other name is undefined.  All four hold lists of
strings, so the lookup returns an optional list. -/
def TagRemovePreprocessor.getattr (self : TagRemovePreprocessor)
    (name : String) : Option (List String) :=
  if name = ("remove_cell_tags") then some self.remove_cell_tags
  else if name = ("remove_all_output_tags") then some self.remove_all_output_tags
  else if name = ("remove_single_output_tags") then some self.remove_single_output_tags
  else if name = ("remove_metadata_fields") then some self.remove_metadata_fields
  else none

/-- Python attribute access as an expression: an undefined attribute raises
AttributeError naming the attribute. -/
def TagRemovePreprocessor.readAttr (self : TagRemovePreprocessor)
    (name : String) : Except PyError (List String) :=
  match self.getattr name with
  | some v => Except.ok v
  | none => Except.error (PyError.attributeError name)

/-- cell.get applied to the tags key with an empty-list default (lines 42 and
65 of the source). -/
def Cell.tagsOrEmpty (c : Cell) : List String := c.tags.getD []

/-- output.metadata.get applied to the tags key with an empty-list default
(line 94 of the source). -/
def Output.tagsOrEmpty (o : Output) : List String := o.tags.getD []

/-- dict.pop with a default (line 72 of the source): removes the entry whose
key equals the field, and is a no-op when the key is absent. -/
def popField (m : List (String × List String)) (field : String) :
    List (String × List String) :=
  m.eraseP (fun kv => kv.1 == field)

/-- check_cell_conditions (lines 33 to 43 of the source).  The comprehension
iterates self.cell_remove_tags, so that attribute is read first; the
membership test tag in cell.get is exact string equality. -/
def TagRemovePreprocessor.check_cell_conditions (self : TagRemovePreprocessor)
    (cell : Cell) : Except PyError Bool :=
  match self.readAttr ("cell_remove_tags") with
  | Except.error e => Except.error e
  | Except.ok ts =>
      Except.ok (! ts.any (fun tag => cell.tagsOrEmpty.contains tag))

/-- check_output_conditions (lines 86 to 95 of the source): reads the
declared trait remove_single_output_tags and the tags entry of the metadata
of the output. -/
def TagRemovePreprocessor.check_output_conditions (self : TagRemovePreprocessor)
    (output : Output) : Bool :=
  ! self.remove_single_output_tags.any
      (fun tag => output.tagsOrEmpty.contains tag)

/-- preprocess_output (lines 98 to 100 of the source): returns the output
unchanged. -/
def TagRemovePreprocessor.preprocess_output (_self : TagRemovePreprocessor)
    (output : Output) : Output := output

/-- preprocess_cell (lines 60 to 84 of the source).  The guard comprehension
iterates self.output_remove_tags, so that attribute is read first.  When the
guard holds, outputs are cleared, the execution counter is nulled, and each
configured metadata field is popped when a metadata mapping is present.  Then
the output list, if still non-empty, is rebuilt keeping outputs that pass
check_output_conditions in order, each passed through preprocess_output. -/
def TagRemovePreprocessor.preprocess_cell (self : TagRemovePreprocessor)
    (cell : Cell) : Except PyError Cell :=
  match self.readAttr ("output_remove_tags") with
  | Except.error e => Except.error e
  | Except.ok ort =>
      let cell1 :=
        if ort.any (fun tag => cell.tagsOrEmpty.contains tag) then
          { cell with
              outputs := [],
              execution_count := none,
              metadata := Option.map
                (fun m => self.remove_metadata_fields.foldl popField m)
                cell.metadata }
        else cell
      let cell2 :=
        if cell1.outputs.isEmpty then cell1
        else
          { cell1 with
              outputs := List.map (fun o => self.preprocess_output o)
                (List.filter (fun o => self.check_output_conditions o)
                  cell1.outputs) }
      Except.ok cell2

/-- The cell list comprehension of preprocess (lines 53 to 56 of the source):
for each cell in order, check_cell_conditions is evaluated; when it yields
true, preprocess_cell is applied and the result kept.  An exception anywhere
aborts the whole comprehension. -/
def TagRemovePreprocessor.processCells (self : TagRemovePreprocessor) :
    List Cell → Except PyError (List Cell)
  | [] => Except.ok []
  | cell :: rest =>
      match self.check_cell_conditions cell with
      | Except.error e => Except.error e
      | Except.ok keep =>
          if keep then
            match self.preprocess_cell cell with
            | Except.error e => Except.error e
            | Except.ok cell1 =>
                match self.processCells rest with
                | Except.error e => Except.error e
                | Except.ok rest1 => Except.ok (cell1 :: rest1)
          else
            self.processCells rest

/-- preprocess (lines 45 to 58 of the source).  The short-circuit condition
reads self.cell_remove_tags and, only when that list is empty (falsy), also
self.output_remove_tags; when both are empty the notebook is returned
unchanged.  Otherwise the cell list is rebuilt by the comprehension.  The
resources argument is threaded through unchanged in the source and is
omitted here. -/
def TagRemovePreprocessor.preprocess (self : TagRemovePreprocessor)
    (nb : Notebook) : Except PyError Notebook :=
  match self.readAttr ("cell_remove_tags") with
  | Except.error e => Except.error e
  | Except.ok crt =>
      if crt.isEmpty then
        match self.readAttr ("output_remove_tags") with
        | Except.error e => Except.error e
        | Except.ok ort =>
            if ort.isEmpty then Except.ok nb
            else
              match self.processCells nb.cells with
              | Except.error e => Except.error e
              | Except.ok cs => Except.ok { nb with cells := cs }
      else
        match self.processCells nb.cells with
        | Except.error e => Except.error e
        | Except.ok cs => Except.ok { nb with cells := cs }

/-- C5: the tag-set lookups in preprocess, check_cell_conditions and
preprocess_cell read the attribute names cell_remove_tags and
output_remove_tags, which differ from the declared traits, so attribute
lookup on them yields nothing; every call to preprocess raises
AttributeError instead of filtering (as does every call to
check_cell_conditions and preprocess_cell), and the values configured under
the declared remove_cell_tags and remove_all_output_tags names are never
consulted: changing them changes nothing. -/
theorem C5_undeclared_attribute_reads (self : TagRemovePreprocessor)
    (nb : Notebook) (cell : Cell) (x y : List String) :
    self.getattr ("cell_remove_tags") = none ∧
    self.getattr ("output_remove_tags") = none ∧
    self.preprocess nb
      = Except.error (PyError.attributeError ("cell_remove_tags")) ∧
    self.check_cell_conditions cell
      = Except.error (PyError.attributeError ("cell_remove_tags")) ∧
    self.preprocess_cell cell
      = Except.error (PyError.attributeError ("output_remove_tags")) ∧
    TagRemovePreprocessor.preprocess
        { self with remove_cell_tags := x, remove_all_output_tags := y } nb
      = self.preprocess nb :=
  ⟨rfl, rfl, rfl, rfl, rfl, rfl⟩

/-- C1: the claim fails on the code.  With remove_cell_tags set to the tag
remove and a notebook holding one cell carrying that tag and one untagged
cell, preprocess produces no filtered document at all: it raises
AttributeError reading the undefined cell_remove_tags attribute, so the
tagged cell is not removed and the untagged cell does not appear in any
result. -/
theorem C1_cell_removal_raises :
    TagRemovePreprocessor.preprocess
      { remove_cell_tags := [("remove")] }
      { cells :=
          [ { tags := some [("remove")], outputs := [],
              execution_count := none, metadata := none, payload := "c0" },
            { tags := none, outputs := [], execution_count := none,
              metadata := none, payload := "c1" } ],
        payload := "nb" }
      = Except.error (PyError.attributeError ("cell_remove_tags")) := rfl

/-- C2: the claim fails on the code.  On a cell carrying the tag clear, with
remove_all_output_tags set to that tag, one output, execution counter 3 and
a collapsed metadata entry, preprocess_cell does not return a cell with
cleared outputs: it raises AttributeError reading the undefined
output_remove_tags attribute. -/
theorem C2_output_clearing_raises :
    TagRemovePreprocessor.preprocess_cell
      { remove_all_output_tags := [("clear")] }
      { tags := some [("clear")],
        outputs := [{ tags := none, payload := "o0" }],
        execution_count := some 3,
        metadata := some [(("collapsed"), [])],
        payload := "c0" }
      = Except.error (PyError.attributeError ("output_remove_tags")) := rfl

/-- C3: the claim fails on the code.  With remove_single_output_tags set to
the tag hide and a notebook whose one cell has an output carrying that tag
followed by an untagged output, preprocess produces no filtered document:
it raises AttributeError reading the undefined cell_remove_tags attribute,
so the tagged output is not removed from any surviving cell. -/
theorem C3_single_output_removal_raises :
    TagRemovePreprocessor.preprocess
      { remove_single_output_tags := [("hide")] }
      { cells :=
          [ { tags := none,
              outputs :=
                [ { tags := some [("hide")], payload := "o0" },
                  { tags := none, payload := "o1" } ],
              execution_count := some 1, metadata := none,
              payload := "c0" } ],
        payload := "nb" }
      = Except.error (PyError.attributeError ("cell_remove_tags")) := rfl

/-- C4: the claim fails on the code.  With all three tag sets empty (the
default configuration) and a one-cell notebook, preprocess does not return
the notebook unchanged: the short-circuit test itself raises AttributeError
reading the undefined cell_remove_tags attribute. -/
theorem C4_empty_config_not_identity :
    TagRemovePreprocessor.preprocess {}
      { cells :=
          [ { tags := some [("keep")], outputs := [],
              execution_count := none, metadata := none,
              payload := "c0" } ],
        payload := "nb" }
      = Except.error (PyError.attributeError ("cell_remove_tags")) := rfl

/-- C6: the claim fails on the code.  On a notebook whose only cell has no
tags field at all, with remove_cell_tags configured, preprocess does raise
an error: AttributeError reading the undefined cell_remove_tags attribute,
so normal operation is never error-free. -/
theorem C6_preprocess_always_raises :
    TagRemovePreprocessor.preprocess
      { remove_cell_tags := [("x")] }
      { cells :=
          [ { tags := none, outputs := [], execution_count := none,
              metadata := none, payload := "c0" } ],
        payload := "nb" }
      = Except.error (PyError.attributeError ("cell_remove_tags")) := rfl

/-- C7: the claim fails on the code.  On a cell matching both the cell
removal and the output clearing tag sets, the cell is not removed at all:
preprocess raises AttributeError before any cell is filtered, and
check_cell_conditions on that very cell raises the same error rather than
selecting it for removal. -/
theorem C7_precedence_raises :
    TagRemovePreprocessor.preprocess
      { remove_cell_tags := [("remove")],
        remove_all_output_tags := [("remove")] }
      { cells :=
          [ { tags := some [("remove")],
              outputs := [{ tags := none, payload := "o0" }],
              execution_count := some 2, metadata := none,
              payload := "c0" } ],
        payload := "nb" }
      = Except.error (PyError.attributeError ("cell_remove_tags")) ∧
    TagRemovePreprocessor.check_cell_conditions
      { remove_cell_tags := [("remove")],
        remove_all_output_tags := [("remove")] }
      { tags := some [("remove")],
        outputs := [{ tags := none, payload := "o0" }],
        execution_count := some 2, metadata := none, payload := "c0" }
      = Except.error (PyError.attributeError ("cell_remove_tags")) :=
  ⟨rfl, rfl⟩

/-- C8: the claim fails on the code.  Filtering a two-cell notebook under an
output-clearing configuration yields no output document whose cell order or
frame could be compared with the input: preprocess raises AttributeError
reading the undefined cell_remove_tags attribute.  The per-output operation
preprocess_output alone does return its output unchanged. -/
theorem C8_frame_never_reached :
    TagRemovePreprocessor.preprocess
      { remove_all_output_tags := [("clear")] }
      { cells :=
          [ { tags := some [("clear")],
              outputs := [{ tags := none, payload := "o0" }],
              execution_count := some 5,
              metadata := some [(("collapsed"), []), (("other"), [("v")])],
              payload := "c0" },
            { tags := none,
              outputs := [{ tags := some [("t")], payload := "o1" }],
              execution_count := none, metadata := none,
              payload := "c1" } ],
        payload := "nb" }
      = Except.error (PyError.attributeError ("cell_remove_tags")) ∧
    TagRemovePreprocessor.preprocess_output
      { remove_all_output_tags := [("clear")] }
      { tags := some [("t")], payload := "o1" }
      = { tags := some [("t")], payload := "o1" } :=
  ⟨rfl, rfl⟩

/-- C9: the claim fails on the code.  With the cell removal and all-output
removal sets empty and the single-output set non-empty, preprocess does not
return the notebook unchanged: the short-circuit test reads the undefined
cell_remove_tags attribute and raises AttributeError. -/
theorem C9_short_circuit_raises :
    TagRemovePreprocessor.preprocess
      { remove_single_output_tags := [("hide")] }
      { cells :=
          [ { tags := none,
              outputs := [{ tags := some [("hide")], payload := "o0" }],
              execution_count := none, metadata := none,
              payload := "c0" } ],
        payload := "nb" }
      = Except.error (PyError.attributeError ("cell_remove_tags")) := rfl

/-- C10: the claim fails on the code.  For a cell whose removal tag is
stored only under its metadata mapping, preprocess does not return a
document in which that cell survives unchanged: it raises AttributeError
reading the undefined cell_remove_tags attribute before any tag is
consulted.  The output-level test alone does read the metadata tags entry
of the output, as the claim describes. -/
theorem C10_metadata_tag_cell_raises :
    TagRemovePreprocessor.preprocess
      { remove_cell_tags := [("remove")] }
      { cells :=
          [ { tags := none, outputs := [], execution_count := none,
              metadata := some [(("tags"), [("remove")])],
              payload := "c0" } ],
        payload := "nb" }
      = Except.error (PyError.attributeError ("cell_remove_tags")) ∧
    TagRemovePreprocessor.check_output_conditions
      { remove_single_output_tags := [("hide")] }
      { tags := some [("hide")], payload := "o0" }
      = false :=
  ⟨rfl, rfl⟩

end TagRemove
